import Mathlib

set_option maxHeartbeats 1000000

/-!
Shallow embedding of the Cloudflare MCP worker (src/worker.js).

JS numbers never take part in arithmetic in this program (scores, sizes and
embedding coordinates are only passed through, and topK is only defaulted and
forwarded), so they are modelled as exact numerator/denominator pairs: the JS
literal 0.9 is the pair (9, 10).  JSON values that the worker inspects are
modelled by the small inductive JVal; JS undefined is modelled by Option.
Thrown JS exceptions are modelled by Except String, the String being the
exception message; the Workers runtime Response is modelled by the Response
structure below.  JSON.stringify is modelled by an injective rendering whose
exact whitespace is irrelevant to every property proved here.
-/

/-- A JS number literal, kept symbolic as numerator/denominator. -/
structure JNum where
  n : Int
  d : Nat
deriving DecidableEq, Repr

/-- A JSON scalar value as inspected by the worker. -/
inductive JVal where
  | null
  | bool (b : Bool)
  | num (q : JNum)
  | str (s : String)
deriving DecidableEq, Repr

/-- JS truthiness of a JVal (models `x ? ... : ...` and `x || y`). -/
def jvalTruthy : JVal → Bool
  | .null => false
  | .bool b => b
  | .num q => q.n != 0
  | .str s => s != ""

/-- JS truthiness of a possibly-undefined string (models `!x` on strings). -/
def truthyStr : Option String → Bool
  | none => false
  | some s => s != ""

/-- An opaque JSON metadata mapping, as stored in the vector index. -/
abbrev MetaMap := List (String × JVal)

/-- Field access on a metadata mapping (models `md?.field`). -/
def metaGet (md : MetaMap) (k : String) : Option JVal :=
  (md.find? (fun kv => kv.fst == k)).map (fun kv => kv.snd)

/-- A raw match as returned by the vector index (fields may be absent). -/
structure RawMatch where
  id : Option JVal
  score : Option JVal
  metadata : Option MetaMap
deriving DecidableEq, Repr

/-- The normalized match shape produced by searchVectors. -/
structure MatchRecord where
  id : Option JVal
  score : Option JVal
  source : Option JVal
  text : Option JVal
  metadata : MetaMap
deriving DecidableEq, Repr

/-- The Workers AI embedding response shape `{ data: number[][] }`. -/
structure EmbeddingResponse where
  data : Option (List (List JNum))
deriving DecidableEq, Repr

/-- The vector index query response: the match list may be under either
the `matches` or the `results` field, or absent. -/
structure VectorResult where
  «matches» : Option (List RawMatch)
  results : Option (List RawMatch)
deriving DecidableEq, Repr

/-- R2 object httpMetadata. -/
structure HttpMeta where
  lastModified : Option JVal
deriving DecidableEq, Repr

/-- An object entry returned by `env.R2.list`. -/
structure R2Object where
  key : String
  size : JNum
  httpMetadata : Option HttpMeta
deriving DecidableEq, Repr

/-- The result of `env.R2.list` (its `objects` field). -/
structure R2ListResult where
  objects : List R2Object
deriving DecidableEq, Repr

/-- The collaborator bindings reachable through `env`.  Each operation either
returns a value or throws (Except.error carries the exception message).  The
bindings `VECTOR_INDEX` and `AI` may be missing, modelled by the two Bool
flags checked by searchVectors. -/
structure Env where
  r2List : String → Except String R2ListResult
  r2Get : String → Except String (Option String)
  hasVectorIndex : Bool
  hasAI : Bool
  aiRun : String → Except String EmbeddingResponse
  vectorQuery : List JNum → JNum → Except String VectorResult

/-- The semantic search helper `searchVectors(env, query, topK)`. -/
def searchVectors (env : Env) (query : String) (topK : JNum) :
    Except String (List MatchRecord) :=
  if !env.hasVectorIndex then
    .error "VECTOR_INDEX binding is missing. Add a [[vectorize]] binding in wrangler.toml."
  else if !env.hasAI then
    .error "AI binding is missing. Add an [ai] binding in wrangler.toml or adjust searchVectors to use your embedding provider."
  else
    match env.aiRun query with
    | .error e => .error e
    | .ok resp =>
      match resp.data.bind List.head? with
      | none => .error "Could not extract embedding from Workers AI response."
      | some embedding =>
        match env.vectorQuery embedding topK with
        | .error e => .error e
        | .ok vr =>
          let ms := match vr.«matches» with
            | some l => l
            | none => vr.results.getD []
          .ok (ms.map (fun m =>
            { id := m.id
              score := m.score
              source := m.metadata.bind (fun md => metaGet md "source")
              text := m.metadata.bind (fun md => metaGet md "text")
              metadata := m.metadata.getD [] }))

/-- A listed file entry `{ key, size, lastModified }`. -/
structure FileEntry where
  key : String
  size : JNum
  lastModified : JVal
deriving DecidableEq, Repr

/-- Maps an R2 object to a file entry
(`lastModified: obj.httpMetadata?.lastModified || null`). -/
def mkFileEntry (obj : R2Object) : FileEntry :=
  { key := obj.key
    size := obj.size
    lastModified :=
      match obj.httpMetadata.bind (fun md => md.lastModified) with
      | some v => if jvalTruthy v then v else JVal.null
      | none => JVal.null }

/-- JSON string quoting (the strings at hand need no escaping). -/
def quoteStr (s : String) : String := "\"" ++ s ++ "\""

/-- Injective rendering of a JS number (stands in for JSON number output). -/
def jnumToString (q : JNum) : String :=
  toString q.n ++ "/" ++ toString q.d

/-- Rendering of a JSON scalar. -/
def jvalToString : JVal → String
  | .null => "null"
  | .bool b => cond b "true" "false"
  | .num q => jnumToString q
  | .str s => quoteStr s

/-- Rendering of one listed file entry. -/
def fileEntryToString (f : FileEntry) : String :=
  "\x7b \"key\": " ++ quoteStr f.key ++ ", \"size\": " ++ jnumToString f.size ++
    ", \"lastModified\": " ++ jvalToString f.lastModified ++ " \x7d"

/-- Models `JSON.stringify(files, null, 2)`. -/
def stringifyFiles (fs : List FileEntry) : String :=
  "[" ++ String.intercalate ", " (fs.map fileEntryToString) ++ "]"

/-- A JSON object field that is dropped when the value is undefined,
as JSON.stringify does. -/
def optField (k : String) (v : Option JVal) : List String :=
  match v with
  | none => []
  | some w => [quoteStr k ++ ": " ++ jvalToString w]

/-- Rendering of a metadata mapping. -/
def metaToString (md : MetaMap) : String :=
  "\x7b" ++
    String.intercalate ", "
      (md.map (fun kv => quoteStr kv.fst ++ ": " ++ jvalToString kv.snd)) ++
    "\x7d"

/-- Rendering of one normalized match. -/
def matchToString (m : MatchRecord) : String :=
  "\x7b" ++
    String.intercalate ", "
      (optField "id" m.id ++ optField "score" m.score ++
        optField "source" m.source ++ optField "text" m.text ++
        [quoteStr "metadata" ++ ": " ++ metaToString m.metadata]) ++
    "\x7d"

/-- Models `JSON.stringify(matches, null, 2)`. -/
def stringifyMatches (ms : List MatchRecord) : String :=
  "[" ++ String.intercalate ", " (ms.map matchToString) ++ "]"

/-- The payload of a JSON-RPC result: a tool content block, the initialize
descriptor, or the tools/list table (descriptors abbreviated to their
names; their schemas are static data not inspected by any code path). -/
inductive RpcResult where
  | content (text : String)
  | initResult (protocolVersion serverName serverVersion instructions : String)
  | toolsList (toolNames : List String)
deriving DecidableEq, Repr

/-- The serialized HTTP response body: plaintext (health check), JSON-RPC
result, JSON-RPC error, or a legacy content block. -/
inductive RespBody where
  | plain (s : String)
  | rpcResult (id : Option JVal) (r : RpcResult)
  | rpcError (id : Option JVal) (code : Int) (message : String)
  | legacyContent (text : String)
deriving DecidableEq, Repr

/-- An HTTP response. -/
structure Response where
  status : Nat
  body : RespBody
deriving DecidableEq, Repr

/-- Helper `jsonRpcResult(id, result, httpStatus)`. -/
def jsonRpcResult (id : Option JVal) (result : RpcResult) (httpStatus : Nat) :
    Response :=
  ⟨httpStatus, .rpcResult id result⟩

/-- Helper `jsonRpcError(id, code, message, httpStatus)`. -/
def jsonRpcError (id : Option JVal) (code : Int) (message : String)
    (httpStatus : Nat) : Response :=
  ⟨httpStatus, .rpcError id code message⟩

/-- Helper `legacyJson({content:[{type:"text",text}]}, status)`. -/
def legacyJson (text : String) (status : Nat) : Response :=
  ⟨status, .legacyContent text⟩

/-- The `arguments` mapping of a tools/call request, restricted to the fields
the three tools read. -/
structure ToolArgs where
  path : Option String
  query : Option String
  topK : Option JNum
deriving DecidableEq, Repr

/-- The `params` member of a request body, restricted to the fields read by
either dispatch path. -/
structure RpcParams where
  name : Option String
  arguments : Option ToolArgs
  path : Option String
  query : Option String
  topK : Option JNum
deriving DecidableEq, Repr

/-- A parsed JSON request body (JSON null / non-objects behave as the record
with every field absent, matching `body || {}` and `params?.f`). -/
structure ParsedBody where
  jsonrpc : Option String
  id : Option JVal
  method : Option String
  params : Option RpcParams
deriving DecidableEq, Repr

/-- A POST body: either unparseable JSON or a parsed body. -/
inductive ReqBody where
  | malformed
  | parsed (b : ParsedBody)
deriving DecidableEq, Repr

/-- Models `p.endsWith("/")`: the last character is '/'. -/
def endsWithSlash (p : String) : Bool :=
  p.data.getLast? == some '/'

/-- The list_r2_files prefix normalization as written in the tools/call
branch (worker.js lines 231-238). -/
def normalizeListPath (p : String) : String :=
  if p = "" ∨ p = "/" then ""
  else if !endsWithSlash p then p ++ "/"
  else p

/-- The identical normalization snippet as written in the legacy branch
(worker.js lines 36-43); the source duplicates the code, so the embedding
keeps two definitions. -/
def normalizeListPathLegacy (p : String) : String :=
  if p = "" ∨ p = "/" then ""
  else if !endsWithSlash p then p ++ "/"
  else p

/-- JS template interpolation of a possibly-undefined string. -/
def jsUndefOr : Option String → String
  | none => "undefined"
  | some s => s

/-- The static `instructions` string of the initialize result. -/
def instructionsText : String :=
  "This server exposes tools for listing and reading files from an R2 bucket and performing semantic search over a Cloudflare Vectorize index."

/-- The MCP / JSON-RPC handler `handleJsonRpc(body, env)`.  An Except.error
escaping here models an exception propagating out of handleJsonRpc into the
top-level catch of fetch. -/
def handleJsonRpc (body : ParsedBody) (env : Env) : Except String Response :=
  let id := body.id
  if body.method = some "initialize" then
    .ok (jsonRpcResult id
      (.initResult "2024-11-05" "gencloud-qa-mcp" "0.1.0" instructionsText) 200)
  else if body.method = some "tools/list" then
    .ok (jsonRpcResult id
      (.toolsList ["list_r2_files", "read_r2_file", "search_vectors"]) 200)
  else if body.method = some "tools/call" then
    let toolName := body.params.bind (fun p => p.name)
    let args := (body.params.bind (fun p => p.arguments)).getD ⟨none, none, none⟩
    if !truthyStr toolName then
      .ok (jsonRpcError id (-32602) "Missing tool name in params.name" 200)
    else if toolName = some "list_r2_files" then
      match env.r2List (normalizeListPath (args.path.getD "")) with
      | .error e => .error e
      | .ok lst =>
        .ok (jsonRpcResult id
          (.content (stringifyFiles (lst.objects.map mkFileEntry))) 200)
    else if toolName = some "read_r2_file" then
      if !truthyStr args.path then
        .ok (jsonRpcResult id (.content "Error: missing 'path' argument") 200)
      else
        match env.r2Get (args.path.getD "") with
        | .error e => .error e
        | .ok none =>
          .ok (jsonRpcResult id
            (.content ("Error: File \"" ++ args.path.getD "" ++ "\" not found")) 200)
        | .ok (some bodyText) =>
          .ok (jsonRpcResult id (.content bodyText) 200)
    else if toolName = some "search_vectors" then
      if !truthyStr args.query then
        .ok (jsonRpcResult id (.content "Error: missing 'query' argument") 200)
      else
        match searchVectors env (args.query.getD "") (args.topK.getD ⟨5, 1⟩) with
        | .ok ms =>
          .ok (jsonRpcResult id (.content (stringifyMatches ms)) 200)
        | .error e =>
          .ok (jsonRpcResult id
            (.content ("Error running search_vectors: " ++ e)) 200)
    else
      .ok (jsonRpcError id (-32601) ("Unknown tool: " ++ jsUndefOr toolName) 200)
  else
    .ok (jsonRpcError id (-32601) ("Unknown method: " ++ jsUndefOr body.method) 200)

/-- The legacy flat-call dispatch inlined in fetch (worker.js lines 33-126).
An Except.error escaping here models an exception propagating into the
top-level catch of fetch; note that the legacy search_vectors branch has its
own try/catch while the legacy list/read branches do not. -/
def legacyFetch (body : ParsedBody) (env : Env) : Except String Response :=
  let params := body.params
  if body.method = some "list_r2_files" then
    match env.r2List (normalizeListPathLegacy
        ((params.bind (fun p => p.path)).getD "")) with
    | .error e => .error e
    | .ok lst =>
      .ok (legacyJson (stringifyFiles (lst.objects.map mkFileEntry)) 200)
  else if body.method = some "read_r2_file" then
    let path := params.bind (fun p => p.path)
    if !truthyStr path then
      .ok (legacyJson "Error: missing 'path'" 200)
    else
      match env.r2Get (path.getD "") with
      | .error e => .error e
      | .ok none =>
        .ok (legacyJson ("Error: File \"" ++ path.getD "" ++ "\" not found") 200)
      | .ok (some bodyText) => .ok (legacyJson bodyText 200)
  else if body.method = some "search_vectors" then
    let query := params.bind (fun p => p.query)
    if !truthyStr query then
      .ok (legacyJson "Error: missing 'query'" 200)
    else
      match searchVectors env (query.getD "")
          ((params.bind (fun p => p.topK)).getD ⟨5, 1⟩) with
      | .ok ms => .ok (legacyJson (stringifyMatches ms) 200)
      | .error e =>
        .ok (legacyJson ("Error running search_vectors: " ++ e) 200)
  else
    .ok (legacyJson ("Unknown method: " ++ jsUndefOr body.method) 200)

/-- The exported `fetch(request, env, ctx)` handler: classification of the
HTTP method, body parse, routing, and the top-level catch-all that turns any
escaped exception into the -32603 internal error with id null. -/
def fetch (httpMethod : String) (body : ReqBody) (env : Env) : Response :=
  if httpMethod = "GET" then
    ⟨200, .plain "MCP Worker is running. Send JSON-RPC 2.0 via POST."⟩
  else if httpMethod ≠ "POST" then
    jsonRpcError (some .null) (-32600) "Invalid request method (POST required)" 200
  else
    match body with
    | .malformed => jsonRpcError (some .null) (-32700) "Parse error: invalid JSON" 200
    | .parsed b =>
      if b.jsonrpc = some "2.0" then
        match handleJsonRpc b env with
        | .ok r => r
        | .error msg =>
          jsonRpcError (some .null) (-32603) ("Internal error: " ++ msg) 200
      else
        match legacyFetch b env with
        | .ok r => r
        | .error msg =>
          jsonRpcError (some .null) (-32603) ("Internal error: " ++ msg) 200

/-- The inner content text of a response, when it carries one (the text of a
JSON-RPC content result or of a legacy content block). -/
def contentText : Response → Option String
  | ⟨_, .rpcResult _ (.content t)⟩ => some t
  | ⟨_, .legacyContent t⟩ => some t
  | _ => none

/-- Whether a body is one of the three protocol envelopes (everything except
the plaintext health check). -/
def isEnvelopeBody : RespBody → Bool
  | .plain _ => false
  | _ => true

/-- Whether a response is a JSON-RPC result envelope. -/
def isRpcResultResp : Response → Bool
  | ⟨_, .rpcResult _ _⟩ => true
  | _ => false

/-- The `arguments` mapping with every field absent. -/
def emptyArgs : ToolArgs := ⟨none, none, none⟩

/-- A JSON-RPC tools/call request body for a given tool and arguments. -/
def mcpCallBody (id : Option JVal) (tool : Option String) (args : ToolArgs) :
    ParsedBody :=
  ⟨some "2.0", id, some "tools/call", some ⟨tool, some args, none, none, none⟩⟩

/-- A legacy flat-call request body for a given tool and arguments. -/
def legacyCallBody (tool : String) (args : ToolArgs) : ParsedBody :=
  ⟨none, none, some tool, some ⟨none, none, args.path, args.query, args.topK⟩⟩

/-- An environment whose collaborators all answer benignly: the bucket is
empty and the vector index returns no field at all. -/
def env0 : Env :=
  { r2List := fun _ => .ok ⟨[]⟩
    r2Get := fun _ => .ok none
    hasVectorIndex := true
    hasAI := true
    aiRun := fun _ => .ok ⟨some [[⟨1, 10⟩, ⟨2, 10⟩]]⟩
    vectorQuery := fun _ _ => .ok ⟨none, none⟩ }

/-- An environment whose every collaborator operation throws "boom". -/
def envBoom : Env :=
  { r2List := fun _ => .error "boom"
    r2Get := fun _ => .error "boom"
    hasVectorIndex := false
    hasAI := false
    aiRun := fun _ => .error "boom"
    vectorQuery := fun _ _ => .error "boom" }

/-- The raw index match of the worked success example:
`{id:"a", score:0.9, metadata:{source:"s", text:"t"}}`. -/
def rawA : RawMatch :=
  ⟨some (.str "a"), some (.num ⟨9, 10⟩),
    some [("source", .str "s"), ("text", .str "t")]⟩

/-- An environment realizing the worked success example: the embedding of any
query is [0.1, 0.2] and the index answers exactly that embedding at topK 5
with one match under the `matches` field. -/
def envC5 : Env :=
  { env0 with
    vectorQuery := fun e k =>
      if e = [⟨1, 10⟩, ⟨2, 10⟩] ∧ k = ⟨5, 1⟩ then .ok ⟨some [rawA], none⟩
      else .error "unexpected query" }

/-- Like envC5 but the index answers under the `results` field name. -/
def envC5R : Env :=
  { env0 with
    vectorQuery := fun e k =>
      if e = [⟨1, 10⟩, ⟨2, 10⟩] ∧ k = ⟨5, 1⟩ then .ok ⟨none, some [rawA]⟩
      else .error "unexpected query" }

/-- Like envC5 but the match carries no metadata at all. -/
def envC5N : Env :=
  { env0 with
    vectorQuery := fun e k =>
      if e = [⟨1, 10⟩, ⟨2, 10⟩] ∧ k = ⟨5, 1⟩ then
        .ok ⟨some [⟨some (.str "a"), some (.num ⟨9, 10⟩), none⟩], none⟩
      else .error "unexpected query" }

/-- The expected normalized record of the worked success example. -/
def recA : MatchRecord :=
  ⟨some (.str "a"), some (.num ⟨9, 10⟩), some (.str "s"), some (.str "t"),
    [("source", .str "s"), ("text", .str "t")]⟩

theorem normalize_defs_agree (p : String) :
    normalizeListPathLegacy p = normalizeListPath p := rfl

theorem data_slash : "/".data = ['/'] := rfl

theorem data_empty : "".data = [] := rfl

theorem endsWithSlash_append (p : String) : endsWithSlash (p ++ "/") = true := by
  unfold endsWithSlash
  rw [String.data_append, data_slash, List.getLast?_concat]
  rfl

theorem append_slash_ne_empty (p : String) : p ++ "/" ≠ "" := by
  intro h
  have h3 := congrArg String.data h
  rw [String.data_append, data_slash, data_empty] at h3
  simp at h3

theorem append_slash_ne_slash (p : String) (hp : p ≠ "") : p ++ "/" ≠ "/" := by
  intro h
  apply hp
  apply String.ext
  have h3 := congrArg String.data h
  rw [String.data_append, data_slash] at h3
  have h4 := congrArg List.length h3
  simp at h4
  rw [data_empty]
  exact List.eq_nil_of_length_eq_zero h4

theorem normalizeListPath_idem (p : String) :
    normalizeListPath (normalizeListPath p) = normalizeListPath p := by
  by_cases h1 : p = "" ∨ p = "/"
  · simp [normalizeListPath, h1]
  · push_neg at h1
    obtain ⟨hne, hns⟩ := h1
    by_cases hs : endsWithSlash p
    · simp [normalizeListPath, hne, hns, hs]
    · have hs2 : endsWithSlash p = false := by simpa using hs
      simp [normalizeListPath, hne, hns, hs2, endsWithSlash_append,
        append_slash_ne_empty p, append_slash_ne_slash p hne]

/-- An environment whose bucket holds one file "a.txt" with content
"hello world". -/
def envFile : Env :=
  { env0 with
    r2Get := fun k => if k = "a.txt" then .ok (some "hello world") else .ok none }

/-- An environment whose index answers every query with the given raw match
list under the `matches` field. -/
def envOfMatches (ms : List RawMatch) : Env :=
  { env0 with vectorQuery := fun _ _ => .ok ⟨some ms, none⟩ }

/-- C1 counterexample: with query omitted, the legacy path answers
"Error: missing 'query'" while the MCP tools/call path answers
"Error: missing 'query' argument", so the two inner content texts differ. -/
theorem legacy_mcp_query_text_differs :
    contentText (fetch "POST" (.parsed (legacyCallBody "search_vectors" emptyArgs)) env0)
        = some "Error: missing 'query'"
      ∧ contentText (fetch "POST"
            (.parsed (mcpCallBody none (some "search_vectors") emptyArgs)) env0)
        = some "Error: missing 'query' argument"
      ∧ contentText (fetch "POST" (.parsed (legacyCallBody "search_vectors" emptyArgs)) env0)
        ≠ contentText (fetch "POST"
            (.parsed (mcpCallBody none (some "search_vectors") emptyArgs)) env0) := by
  refine ⟨by decide, by decide, by decide⟩

/-- C1 amended: for each of the three tools and every argument mapping whose
required argument (path for read_r2_file, query for search_vectors) is
present and non-empty, the legacy flat-call path and the MCP tools/call path
produce the same inner content text; the missing-argument texts are the one
place the two paths differ. -/
theorem legacy_mcp_content_agree (env : Env) (id : Option JVal) (tool : String)
    (a : ToolArgs)
    (htool : tool = "list_r2_files" ∨ tool = "read_r2_file" ∨ tool = "search_vectors")
    (hpath : tool = "read_r2_file" → truthyStr a.path = true)
    (hquery : tool = "search_vectors" → truthyStr a.query = true) :
    contentText (fetch "POST" (.parsed (legacyCallBody tool a)) env)
      = contentText (fetch "POST" (.parsed (mcpCallBody id (some tool) a)) env) := by
  rcases htool with h | h | h
  · subst h
    cases hr : env.r2List (normalizeListPath (a.path.getD "")) with
    | error e =>
      simp [fetch, legacyFetch, handleJsonRpc, legacyCallBody, mcpCallBody,
        normalize_defs_agree, hr, contentText, jsonRpcError, legacyJson,
        jsonRpcResult, truthyStr]
    | ok lst =>
      simp [fetch, legacyFetch, handleJsonRpc, legacyCallBody, mcpCallBody,
        normalize_defs_agree, hr, contentText, jsonRpcError, legacyJson,
        jsonRpcResult, truthyStr]
  · subst h
    have hp := hpath rfl
    cases hpO : a.path with
    | none => rw [hpO] at hp; exact absurd hp (by decide)
    | some s =>
      rw [hpO] at hp
      have hs : (s != "") = true := by simpa [truthyStr] using hp
      cases hr : env.r2Get s with
      | error e =>
        simp [fetch, legacyFetch, handleJsonRpc, legacyCallBody, mcpCallBody,
          hpO, hs, hr, contentText, jsonRpcError, legacyJson, jsonRpcResult,
          truthyStr]
      | ok ob =>
        cases ob with
        | none =>
          simp [fetch, legacyFetch, handleJsonRpc, legacyCallBody, mcpCallBody,
            hpO, hs, hr, contentText, jsonRpcError, legacyJson, jsonRpcResult,
            truthyStr]
        | some t =>
          simp [fetch, legacyFetch, handleJsonRpc, legacyCallBody, mcpCallBody,
            hpO, hs, hr, contentText, jsonRpcError, legacyJson, jsonRpcResult,
            truthyStr]
  · subst h
    have hq := hquery rfl
    cases hqO : a.query with
    | none => rw [hqO] at hq; exact absurd hq (by decide)
    | some s =>
      rw [hqO] at hq
      have hs : (s != "") = true := by simpa [truthyStr] using hq
      cases hr : searchVectors env s (a.topK.getD ⟨5, 1⟩) with
      | error e =>
        simp [fetch, legacyFetch, handleJsonRpc, legacyCallBody, mcpCallBody,
          hqO, hs, hr, contentText, jsonRpcError, legacyJson, jsonRpcResult,
          truthyStr]
      | ok ms =>
        simp [fetch, legacyFetch, handleJsonRpc, legacyCallBody, mcpCallBody,
          hqO, hs, hr, contentText, jsonRpcError, legacyJson, jsonRpcResult,
          truthyStr]

/-- C1 witness: the amended agreement at a concrete input (search_vectors
with a present query against env0). -/
theorem legacy_mcp_content_agree_witness :
    contentText (fetch "POST"
        (.parsed (legacyCallBody "search_vectors" ⟨none, some "hello", none⟩)) env0)
      = contentText (fetch "POST"
        (.parsed (mcpCallBody none (some "search_vectors")
          ⟨none, some "hello", none⟩)) env0) :=
  legacy_mcp_content_agree env0 none "search_vectors" ⟨none, some "hello", none⟩
    (by decide) (by decide) (by decide)

/-- C2 counterexample: a storage failure during a tools/call of list_r2_files
is not caught at the executor boundary: it surfaces as a JSON-RPC error
object (-32603), not as a JSON-RPC result. -/
theorem list_storage_failure_is_rpc_error :
    fetch "POST" (.parsed (mcpCallBody (some (.num ⟨7, 1⟩)) (some "list_r2_files")
        emptyArgs)) envBoom
      = jsonRpcError (some .null) (-32603) "Internal error: boom" 200
      ∧ isRpcResultResp (fetch "POST" (.parsed (mcpCallBody (some (.num ⟨7, 1⟩))
          (some "list_r2_files") emptyArgs)) envBoom) = false := by
  refine ⟨by decide, by decide⟩

/-- C2 amended: only the search_vectors executor catches failures at the
executor boundary (every tools/call of search_vectors with a present query
yields a JSON-RPC result, never an error object); failures thrown during
list_r2_files or read_r2_file execution escape to the top-level catch-all
and come back as the JSON-RPC error -32603. -/
theorem executor_catch_asymmetry :
    (∀ (env : Env) (id : Option JVal) (q : String), q ≠ "" →
      isRpcResultResp (fetch "POST" (.parsed (mcpCallBody id (some "search_vectors")
        ⟨none, some q, none⟩)) env) = true)
    ∧ (∀ (env : Env) (id : Option JVal) (p msg : String), p ≠ "" →
        env.r2Get p = .error msg →
        fetch "POST" (.parsed (mcpCallBody id (some "read_r2_file")
            ⟨some p, none, none⟩)) env
          = jsonRpcError (some .null) (-32603) ("Internal error: " ++ msg) 200) := by
  constructor
  · intro env id q hq
    have hs : (q != "") = true := by simpa using hq
    cases hr : searchVectors env q ⟨5, 1⟩ with
    | error e =>
      simp [fetch, handleJsonRpc, mcpCallBody, hs, hr, truthyStr,
        jsonRpcResult, isRpcResultResp]
    | ok ms =>
      simp [fetch, handleJsonRpc, mcpCallBody, hs, hr, truthyStr,
        jsonRpcResult, isRpcResultResp]
  · intro env id p msg hp hr
    have hs : (p != "") = true := by simpa using hp
    simp [fetch, handleJsonRpc, mcpCallBody, hs, hr, truthyStr,
      jsonRpcResult, jsonRpcError]

/-- C2 witness: the amended asymmetry at concrete inputs. -/
theorem executor_catch_asymmetry_witness :
    isRpcResultResp (fetch "POST" (.parsed (mcpCallBody none (some "search_vectors")
        ⟨none, some "hello", none⟩)) env0) = true
    ∧ fetch "POST" (.parsed (mcpCallBody none (some "read_r2_file")
        ⟨some "a.txt", none, none⟩)) envBoom
      = jsonRpcError (some .null) (-32603) "Internal error: boom" 200 :=
  ⟨executor_catch_asymmetry.1 env0 none "hello" (by decide),
    executor_catch_asymmetry.2 envBoom none "a.txt" "boom" (by decide) rfl⟩

/-- C3: an exception thrown inside a tool executor and not caught there (a
storage failure during a tools/call of list_r2_files, or during a legacy
read_r2_file) reaches the top-level catch-all and becomes the JSON-RPC error
-32603 with id null and message "Internal error: " followed by the
exception's message; the dispatcher itself returns a response rather than
crashing. -/
theorem uncaught_executor_exception_internal_error :
    (∀ (env : Env) (id : Option JVal) (a : ToolArgs) (msg : String),
      env.r2List (normalizeListPath (a.path.getD "")) = .error msg →
      fetch "POST" (.parsed (mcpCallBody id (some "list_r2_files") a)) env
        = jsonRpcError (some .null) (-32603) ("Internal error: " ++ msg) 200)
    ∧ (∀ (env : Env) (p msg : String), p ≠ "" →
        env.r2Get p = .error msg →
        fetch "POST" (.parsed (legacyCallBody "read_r2_file" ⟨some p, none, none⟩)) env
          = jsonRpcError (some .null) (-32603) ("Internal error: " ++ msg) 200) := by
  constructor
  · intro env id a msg hr
    simp [fetch, handleJsonRpc, mcpCallBody, hr, truthyStr,
      jsonRpcResult, jsonRpcError]
  · intro env p msg hp hr
    have hs : (p != "") = true := by simpa using hp
    simp [fetch, legacyFetch, legacyCallBody, hs, hr, truthyStr,
      legacyJson, jsonRpcError]

/-- C3 witness: the internal-error conversion at concrete inputs. -/
theorem uncaught_executor_exception_internal_error_witness :
    fetch "POST" (.parsed (mcpCallBody none (some "list_r2_files") emptyArgs)) envBoom
      = jsonRpcError (some .null) (-32603) "Internal error: boom" 200
    ∧ fetch "POST" (.parsed (legacyCallBody "read_r2_file" ⟨some "a.txt", none, none⟩))
        envBoom
      = jsonRpcError (some .null) (-32603) "Internal error: boom" 200 :=
  ⟨uncaught_executor_exception_internal_error.1 envBoom none emptyArgs "boom" rfl,
    uncaught_executor_exception_internal_error.2 envBoom "a.txt" "boom"
      (by decide) rfl⟩

/-- C4: the list_r2_files path normalization maps omitted path, "" and "/"
to the empty string, appends a trailing slash to "logs", leaves "logs/"
unchanged, is idempotent on every string, and the snippet inlined on the
legacy path computes the same function as the one on the tools/call path. -/
theorem list_path_normalization :
    normalizeListPath ((none : Option String).getD "") = ""
      ∧ normalizeListPath "" = ""
      ∧ normalizeListPath "/" = ""
      ∧ normalizeListPath "logs" = "logs/"
      ∧ normalizeListPath "logs/" = "logs/"
      ∧ (∀ p, normalizeListPath (normalizeListPath p) = normalizeListPath p)
      ∧ (∀ p, normalizeListPathLegacy p = normalizeListPath p) :=
  ⟨by decide, by decide, by decide, by decide, by decide,
    normalizeListPath_idem, normalize_defs_agree⟩

/-- C5: the searchVectors adapter passes id and score through, extracts
source and text from nested metadata, always includes the metadata mapping
(defaulting to the empty mapping), accepts the match list under either the
matches or the results field, and treats absence of both as an empty list.
In particular, for the embedding [0.1, 0.2] and an index returning
one match with id "a", score 0.9 and metadata (source "s", text "t"), the
result is the single fully-populated match record. -/
theorem searchVectors_normalizes_matches :
    searchVectors envC5 "hello" ⟨5, 1⟩ = .ok [recA]
      ∧ searchVectors envC5R "hello" ⟨5, 1⟩ = .ok [recA]
      ∧ searchVectors env0 "hello" ⟨5, 1⟩ = .ok []
      ∧ searchVectors envC5N "hello" ⟨5, 1⟩
        = .ok [⟨some (.str "a"), some (.num ⟨9, 10⟩), none, none, []⟩]
      ∧ (∀ ms : List RawMatch, searchVectors (envOfMatches ms) "hello" ⟨5, 1⟩
          = .ok (ms.map (fun m =>
            ⟨m.id, m.score, m.metadata.bind (fun md => metaGet md "source"),
              m.metadata.bind (fun md => metaGet md "text"),
              m.metadata.getD []⟩))) := by
  refine ⟨rfl, rfl, rfl, rfl, ?_⟩
  intro ms
  simp [searchVectors, envOfMatches, env0]

/-- C6: for every read_r2_file call with a present non-empty path, a storage
miss yields a success envelope (JSON-RPC result on the MCP path, content
block on the legacy path) whose text is exactly the File-not-found message,
and a hit yields the object's text verbatim, on both paths. -/
theorem read_r2_file_outcomes (env : Env) (id : Option JVal) (p : String)
    (hp : p ≠ "") :
    (env.r2Get p = .ok none →
      fetch "POST" (.parsed (mcpCallBody id (some "read_r2_file")
          ⟨some p, none, none⟩)) env
        = jsonRpcResult id (.content ("Error: File \"" ++ p ++ "\" not found")) 200
      ∧ fetch "POST" (.parsed (legacyCallBody "read_r2_file" ⟨some p, none, none⟩)) env
        = legacyJson ("Error: File \"" ++ p ++ "\" not found") 200)
    ∧ (∀ txt : String, env.r2Get p = .ok (some txt) →
      fetch "POST" (.parsed (mcpCallBody id (some "read_r2_file")
          ⟨some p, none, none⟩)) env
        = jsonRpcResult id (.content txt) 200
      ∧ fetch "POST" (.parsed (legacyCallBody "read_r2_file" ⟨some p, none, none⟩)) env
        = legacyJson txt 200) := by
  have hs : (p != "") = true := by simpa using hp
  constructor
  · intro hr
    constructor
    · simp [fetch, handleJsonRpc, mcpCallBody, hs, hr, truthyStr, jsonRpcResult]
    · simp [fetch, legacyFetch, legacyCallBody, hs, hr, truthyStr, legacyJson]
  · intro txt hr
    constructor
    · simp [fetch, handleJsonRpc, mcpCallBody, hs, hr, truthyStr, jsonRpcResult]
    · simp [fetch, legacyFetch, legacyCallBody, hs, hr, truthyStr, legacyJson]

/-- C6 witness: the not-found and found outcomes at concrete inputs. -/
theorem read_r2_file_outcomes_witness :
    (fetch "POST" (.parsed (mcpCallBody none (some "read_r2_file")
        ⟨some "missing.txt", none, none⟩)) env0
      = jsonRpcResult none
          (.content "Error: File \"missing.txt\" not found") 200)
    ∧ (fetch "POST" (.parsed (mcpCallBody none (some "read_r2_file")
        ⟨some "a.txt", none, none⟩)) envFile
      = jsonRpcResult none (.content "hello world") 200) :=
  ⟨((read_r2_file_outcomes env0 none "missing.txt" (by decide)).1 rfl).1,
    ((read_r2_file_outcomes envFile none "a.txt" (by decide)).2 "hello world"
      (by simp [envFile])).1⟩

/-- C7: a tools/call without params.name yields the JSON-RPC error -32602; a
tools/call naming none of the three tools yields -32601 with the tool name in
the message; any JSON-RPC method other than initialize, tools/list and
tools/call yields -32601 "Unknown method: <method>". -/
theorem rpc_unknown_and_missing_name :
    (∀ (env : Env) (id : Option JVal) (ps : Option RpcParams),
      ps.bind (fun p => p.name) = none →
      fetch "POST" (.parsed ⟨some "2.0", id, some "tools/call", ps⟩) env
        = jsonRpcError id (-32602) "Missing tool name in params.name" 200)
    ∧ (∀ (env : Env) (id : Option JVal) (t : String) (a : ToolArgs),
        t ≠ "" → t ≠ "list_r2_files" → t ≠ "read_r2_file" → t ≠ "search_vectors" →
        fetch "POST" (.parsed (mcpCallBody id (some t) a)) env
          = jsonRpcError id (-32601) ("Unknown tool: " ++ t) 200)
    ∧ (∀ (env : Env) (id : Option JVal) (m : String) (ps : Option RpcParams),
        m ≠ "initialize" → m ≠ "tools/list" → m ≠ "tools/call" →
        fetch "POST" (.parsed ⟨some "2.0", id, some m, ps⟩) env
          = jsonRpcError id (-32601) ("Unknown method: " ++ m) 200) := by
  refine ⟨?_, ?_, ?_⟩
  · intro env id ps hn
    simp [fetch, handleJsonRpc, hn, truthyStr, jsonRpcError]
  · intro env id t a ht h1 h2 h3
    have hs : (t != "") = true := by simpa using ht
    simp [fetch, handleJsonRpc, mcpCallBody, hs, h1, h2, h3, truthyStr,
      jsUndefOr, jsonRpcError]
  · intro env id m ps h1 h2 h3
    simp [fetch, handleJsonRpc, h1, h2, h3, jsUndefOr, jsonRpcError]

/-- C7 witness: the three protocol errors at concrete inputs. -/
theorem rpc_unknown_and_missing_name_witness :
    fetch "POST" (.parsed ⟨some "2.0", none, some "tools/call", none⟩) env0
      = jsonRpcError none (-32602) "Missing tool name in params.name" 200
    ∧ fetch "POST" (.parsed (mcpCallBody none (some "frobnicate") emptyArgs)) env0
      = jsonRpcError none (-32601) "Unknown tool: frobnicate" 200
    ∧ fetch "POST" (.parsed ⟨some "2.0", none, some "resources/list", none⟩) env0
      = jsonRpcError none (-32601) "Unknown method: resources/list" 200 :=
  ⟨rpc_unknown_and_missing_name.1 env0 none none rfl,
    rpc_unknown_and_missing_name.2.1 env0 none "frobnicate" emptyArgs
      (by decide) (by decide) (by decide) (by decide),
    rpc_unknown_and_missing_name.2.2 env0 none "resources/list" none
      (by decide) (by decide) (by decide)⟩

/-- C8: any HTTP method other than GET and POST yields the JSON-RPC error
-32600 with id null at HTTP status 200, and a POST whose body fails to parse
as JSON yields the JSON-RPC error -32700 with id null at HTTP status 200. -/
theorem transport_level_errors :
    (∀ (m : String) (b : ReqBody) (env : Env), m ≠ "GET" → m ≠ "POST" →
      fetch m b env
        = jsonRpcError (some .null) (-32600) "Invalid request method (POST required)" 200)
    ∧ (∀ env : Env, fetch "POST" .malformed env
        = jsonRpcError (some .null) (-32700) "Parse error: invalid JSON" 200) := by
  constructor
  · intro m b env h1 h2
    simp [fetch, h1, h2]
  · intro env
    rfl

/-- C8 witness: the two transport errors at concrete inputs. -/
theorem transport_level_errors_witness :
    fetch "DELETE" .malformed env0
      = jsonRpcError (some .null) (-32600) "Invalid request method (POST required)" 200
    ∧ fetch "POST" .malformed env0
      = jsonRpcError (some .null) (-32700) "Parse error: invalid JSON" 200 :=
  ⟨transport_level_errors.1 "DELETE" .malformed env0 (by decide) (by decide),
    transport_level_errors.2 env0⟩

/-- C10: falsy strings behave as absent at the public interface: a tools/call
whose name is the empty string gets the -32602 missing-tool-name error (not
the -32601 unknown-tool error), and read_r2_file with path "" as well as
search_vectors with query "" answer the missing-argument text uniformly for
every environment, in particular for environments whose storage and search
collaborators fail on every call (so the collaborators are never consulted). -/
theorem falsy_arguments_treated_as_missing :
    (∀ (env : Env) (id : Option JVal) (a : ToolArgs),
      fetch "POST" (.parsed (mcpCallBody id (some "") a)) env
        = jsonRpcError id (-32602) "Missing tool name in params.name" 200)
    ∧ (∀ (env : Env) (id : Option JVal),
        fetch "POST" (.parsed (mcpCallBody id (some "read_r2_file")
            ⟨some "", none, none⟩)) env
          = jsonRpcResult id (.content "Error: missing 'path' argument") 200)
    ∧ (∀ (env : Env) (id : Option JVal),
        fetch "POST" (.parsed (mcpCallBody id (some "search_vectors")
            ⟨none, some "", none⟩)) env
          = jsonRpcResult id (.content "Error: missing 'query' argument") 200) := by
  refine ⟨?_, ?_, ?_⟩
  · intro env id a
    simp [fetch, handleJsonRpc, mcpCallBody, truthyStr, jsonRpcError]
  · intro env id
    simp [fetch, handleJsonRpc, mcpCallBody, truthyStr, jsonRpcResult]
  · intro env id
    simp [fetch, handleJsonRpc, mcpCallBody, truthyStr, jsonRpcResult]

theorem handleJsonRpc_ok_shape (b : ParsedBody) (env : Env) (r : Response)
    (h : handleJsonRpc b env = .ok r) :
    r.status = 200 ∧ isEnvelopeBody r.body = true := by
  unfold handleJsonRpc at h
  dsimp only at h
  iterate 16 (all_goals try split at h)
  all_goals first
    | exact Except.noConfusion h
    | (injection h with h; subst h; exact ⟨rfl, rfl⟩)

theorem legacyFetch_ok_shape (b : ParsedBody) (env : Env) (r : Response)
    (h : legacyFetch b env = .ok r) :
    r.status = 200 ∧ isEnvelopeBody r.body = true := by
  unfold legacyFetch at h
  dsimp only at h
  iterate 16 (all_goals try split at h)
  all_goals first
    | exact Except.noConfusion h
    | (injection h with h; subst h; exact ⟨rfl, rfl⟩)

/-- C9: every response of the dispatcher, on every exit path and for every
environment, has HTTP status 200, and every non-GET (non-health-check)
response body is one of the three protocol envelopes (JSON-RPC result,
JSON-RPC error, or legacy content) — errors are signaled in the body, never
via the HTTP status. -/
theorem every_response_status200_enveloped (m : String) (b : ReqBody) (env : Env) :
    (fetch m b env).status = 200
      ∧ (m ≠ "GET" → isEnvelopeBody (fetch m b env).body = true) := by
  by_cases hg : m = "GET"
  · subst hg
    exact ⟨rfl, fun h => absurd rfl h⟩
  · by_cases hp : m = "POST"
    · subst hp
      cases b with
      | malformed => exact ⟨rfl, fun _ => rfl⟩
      | parsed pb =>
        by_cases hj : pb.jsonrpc = some "2.0"
        · cases hh : handleJsonRpc pb env with
          | ok r =>
            have hs := handleJsonRpc_ok_shape pb env r hh
            have he : fetch "POST" (.parsed pb) env = r := by
              simp [fetch, hj, hh]
            rw [he]
            exact ⟨hs.1, fun _ => hs.2⟩
          | error msg =>
            have he : fetch "POST" (.parsed pb) env
                = jsonRpcError (some .null) (-32603) ("Internal error: " ++ msg) 200 := by
              simp [fetch, hj, hh]
            rw [he]
            exact ⟨rfl, fun _ => rfl⟩
        · cases hh : legacyFetch pb env with
          | ok r =>
            have hs := legacyFetch_ok_shape pb env r hh
            have he : fetch "POST" (.parsed pb) env = r := by
              simp [fetch, hj, hh]
            rw [he]
            exact ⟨hs.1, fun _ => hs.2⟩
          | error msg =>
            have he : fetch "POST" (.parsed pb) env
                = jsonRpcError (some .null) (-32603) ("Internal error: " ++ msg) 200 := by
              simp [fetch, hj, hh]
            rw [he]
            exact ⟨rfl, fun _ => rfl⟩
    · constructor
      · simp [fetch, hg, hp, jsonRpcError]
      · intro hm
        simp [fetch, hg, hp, jsonRpcError, isEnvelopeBody]

/-- C9 witness: status 200 and envelope shape at a concrete non-GET input. -/
theorem every_response_status200_enveloped_witness :
    (fetch "PUT" .malformed env0).status = 200
      ∧ isEnvelopeBody (fetch "PUT" .malformed env0).body = true :=
  ⟨(every_response_status200_enveloped "PUT" .malformed env0).1,
    (every_response_status200_enveloped "PUT" .malformed env0).2 (by decide)⟩
